import Mathlib

/-!
Shallow embedding of `honeybee_schema/energy/designday.py` (pydantic v1
models) together with the validation and serialization semantics that the
pydantic framework gives to the declared fields.

Structured JSON-like input is modelled by `JValue`; numeric JSON values are
modelled by rationals.  Validation of a model is a function from a string-keyed
mapping to `Except (List FieldError) Model`, where pydantic's behavior of
collecting every field error (with a `loc` path) into one ValidationError is
modelled by returning the list of all field errors.  Serialization mirrors
pydantic's `dict()` (field-declaration order; with `includeDefaults = false`,
fields whose value equals the declared default are omitted, as in
`dict(exclude_defaults=True)`).
-/

namespace DesignDaySchema

/-- A structured JSON-like value: the input and output format of the schema
layer.  Numbers are modelled as rationals. -/
inductive JValue where
  | str (s : String)
  | num (q : ℚ)
  | bool (b : Bool)
  | obj (fields : List (String × JValue))
deriving Repr

/-- The kind of a single validation failure, following the error taxonomy
that pydantic produces for the declared field types. -/
inductive ErrKind where
  | constraintViolation (constraint : String)
  | missingField
  | typeMismatch
deriving Repr, DecidableEq

/-- One validation error: a `loc` path identifying the (possibly nested)
field, and the kind of failure. -/
structure FieldError where
  loc : List String
  kind : ErrKind
deriving Repr, DecidableEq

/-- Result of validating into a model of type `α`: either the validated
instance or the full list of field errors. -/
abbrev VResult (α : Type) := Except (List FieldError) α

/-- The error list of a validation result (empty on success). -/
def errsOf {α : Type} : VResult α → List FieldError
  | .ok _ => []
  | .error es => es

/-- A single error naming a top-level field. -/
def fieldErr (name : String) (k : ErrKind) : List FieldError :=
  [⟨[name], k⟩]

/-- Key lookup in a structured mapping (first occurrence wins). -/
def getField : List (String × JValue) → String → Option JValue
  | [], _ => none
  | (k, v) :: rest, key => if k = key then some v else getField rest key

/-- Inclusive bound check against optional lower and upper bounds, as pydantic
checks `Field(..., ge=lo, le=hi)`. -/
def boundsOk (lo hi : Option ℚ) (q : ℚ) : Bool :=
  (match lo with | some l => decide (l ≤ q) | none => true) &&
  (match hi with | some h => decide (q ≤ h) | none => true)

/-- A required float field with optional inclusive bounds
(`Field(..., ge=lo, le=hi)`). -/
def reqFloat (o : List (String × JValue)) (name : String) (lo hi : Option ℚ) :
    VResult ℚ :=
  match getField o name with
  | none => .error (fieldErr name .missingField)
  | some (.num q) =>
      if boundsOk lo hi q then .ok q
      else .error (fieldErr name (.constraintViolation "value out of declared numeric bounds"))
  | some _ => .error (fieldErr name .typeMismatch)

/-- An optional float field with a declared default and optional inclusive
bounds (`Field(default, ge=lo, le=hi)`); the default is used unchecked when
the field is absent, as pydantic does not validate defaults. -/
def optFloat (o : List (String × JValue)) (name : String) (dflt : ℚ)
    (lo hi : Option ℚ) : VResult ℚ :=
  match getField o name with
  | none => .ok dflt
  | some (.num q) =>
      if boundsOk lo hi q then .ok q
      else .error (fieldErr name (.constraintViolation "value out of declared numeric bounds"))
  | some _ => .error (fieldErr name .typeMismatch)

/-- An optional boolean field with a declared default. -/
def optBool (o : List (String × JValue)) (name : String) (dflt : Bool) :
    VResult Bool :=
  match getField o name with
  | none => .ok dflt
  | some (.bool b) => .ok b
  | some _ => .error (fieldErr name .typeMismatch)

/-- A required string field. -/
def reqStr (o : List (String × JValue)) (name : String) : VResult String :=
  match getField o name with
  | none => .error (fieldErr name .missingField)
  | some (.str s) => .ok s
  | some _ => .error (fieldErr name .typeMismatch)

/-- The `type: constr(regex=pattern) = lit` discriminator field, where the
pattern anchors the literal `lit` on both ends: optional with default `lit`;
a supplied value must equal the literal. -/
def typeTag (o : List (String × JValue)) (lit : String) : VResult String :=
  match getField o "type" with
  | none => .ok lit
  | some (.str s) =>
      if s = lit then .ok s
      else .error (fieldErr "type"
        (.constraintViolation ("string does not match regex ^" ++ lit ++ "$")))
  | some _ => .error (fieldErr "type" .typeMismatch)

/-- A required enumeration field: the raw string must parse to a member. -/
def reqEnum {α : Type} (o : List (String × JValue)) (name : String)
    (parse : String → Option α) : VResult α :=
  match getField o name with
  | none => .error (fieldErr name .missingField)
  | some (.str s) =>
      match parse s with
      | some v => .ok v
      | none => .error (fieldErr name
          (.constraintViolation "value is not a valid enumeration member"))
  | some _ => .error (fieldErr name .typeMismatch)

/-- Prefix every error's `loc` path with the containing field's name, as
pydantic does for errors inside nested models. -/
def withLoc (field : String) (es : List FieldError) : List FieldError :=
  es.map (fun e => ⟨field :: e.loc, e.kind⟩)

/-- A required nested-model field: the raw value must be a structured mapping
and the nested validator must accept it; nested errors get the field's name
as a path prefix on their `loc`. -/
def reqNested {α : Type} (o : List (String × JValue)) (name : String)
    (validator : List (String × JValue) → VResult α) : VResult α :=
  match getField o name with
  | none => .error (fieldErr name .missingField)
  | some (.obj fields) =>
      match validator fields with
      | .ok v => .ok v
      | .error es => .error (withLoc name es)
  | some _ => .error (fieldErr name .typeMismatch)

/-- `DryBulbCondition`: dry bulb conditions on a design day. -/
structure DryBulbCondition where
  type : String := "DryBulbCondition"
  dry_bulb_max : ℚ
  dry_bulb_range : ℚ
deriving Repr, DecidableEq

/-- Validation of `DryBulbCondition` from a structured mapping:
`type` an anchored literal with default, `dry_bulb_max` a required float in
[-90, 70], `dry_bulb_range` a required float with `ge=0`; all field errors
are collected. -/
def DryBulbCondition.validate (o : List (String × JValue)) :
    VResult DryBulbCondition :=
  let rt := typeTag o "DryBulbCondition"
  let ra := reqFloat o "dry_bulb_max" (some (-90)) (some 70)
  let rb := reqFloat o "dry_bulb_range" (some 0) none
  match rt, ra, rb with
  | .ok t, .ok a, .ok b => .ok ⟨t, a, b⟩
  | rt, ra, rb => .error (errsOf rt ++ errsOf ra ++ errsOf rb)

/-- Serialization of `DryBulbCondition` in field-declaration order; with
`includeDefaults = false`, fields equal to their declared default are
omitted. -/
def DryBulbCondition.serialize (c : DryBulbCondition) (includeDefaults : Bool) :
    List (String × JValue) :=
  (if includeDefaults = true ∨ c.type ≠ "DryBulbCondition"
    then [("type", JValue.str c.type)] else [])
  ++ [("dry_bulb_max", JValue.num c.dry_bulb_max),
      ("dry_bulb_range", JValue.num c.dry_bulb_range)]

/-- A `DryBulbCondition` is well formed when its fields satisfy the declared
constraints (so it could have been produced by validation). -/
def DryBulbCondition.wf (c : DryBulbCondition) : Prop :=
  c.type = "DryBulbCondition" ∧
  (-90 ≤ c.dry_bulb_max ∧ c.dry_bulb_max ≤ 70) ∧ 0 ≤ c.dry_bulb_range

instance (c : DryBulbCondition) : Decidable c.wf := by
  unfold DryBulbCondition.wf; infer_instance

/-- `HumidityTypes` enumeration from the source. -/
inductive HumidityTypes where
  | wetbulb
  | dewpoint
  | humidity_ratio
  | enthalpy
deriving Repr, DecidableEq

/-- The string value of each `HumidityTypes` member. -/
def HumidityTypes.toStr : HumidityTypes → String
  | .wetbulb => "Wetbulb"
  | .dewpoint => "Dewpoint"
  | .humidity_ratio => "HumidityRatio"
  | .enthalpy => "Enthalpy"

/-- Parse a raw string into a `HumidityTypes` member. -/
def HumidityTypes.fromStr : String → Option HumidityTypes
  | "Wetbulb" => some .wetbulb
  | "Dewpoint" => some .dewpoint
  | "HumidityRatio" => some .humidity_ratio
  | "Enthalpy" => some .enthalpy
  | _ => none

/-- `HumidityCondition`: humidity conditions on a design day. -/
structure HumidityCondition where
  type : String := "HumidityCondition"
  humidity_type : HumidityTypes
  humidity_value : ℚ
  barometric_pressure : ℚ := 101325
  rain : Bool := false
  snow_on_ground : Bool := false
deriving Repr, DecidableEq

/-- Validation of `HumidityCondition`: `type` an anchored literal with
default, `humidity_type` a required enumeration member, `humidity_value` a
required unconstrained float, `barometric_pressure` an optional float in
[31000, 120000] with default 101325, `rain` and `snow_on_ground` optional
booleans defaulting to false. -/
def HumidityCondition.validate (o : List (String × JValue)) :
    VResult HumidityCondition :=
  let rt := typeTag o "HumidityCondition"
  let rh := reqEnum o "humidity_type" HumidityTypes.fromStr
  let rv := reqFloat o "humidity_value" none none
  let rp := optFloat o "barometric_pressure" 101325 (some 31000) (some 120000)
  let rr := optBool o "rain" false
  let rs := optBool o "snow_on_ground" false
  match rt, rh, rv, rp, rr, rs with
  | .ok t, .ok h, .ok v, .ok p, .ok r, .ok s => .ok ⟨t, h, v, p, r, s⟩
  | rt, rh, rv, rp, rr, rs =>
      .error (errsOf rt ++ errsOf rh ++ errsOf rv ++ errsOf rp ++
        errsOf rr ++ errsOf rs)

/-- Serialization of `HumidityCondition` in field-declaration order; with
`includeDefaults = false`, fields equal to their declared default are
omitted. -/
def HumidityCondition.serialize (c : HumidityCondition)
    (includeDefaults : Bool) : List (String × JValue) :=
  (if includeDefaults = true ∨ c.type ≠ "HumidityCondition"
    then [("type", JValue.str c.type)] else [])
  ++ [("humidity_type", JValue.str c.humidity_type.toStr),
      ("humidity_value", JValue.num c.humidity_value)]
  ++ (if includeDefaults = true ∨ c.barometric_pressure ≠ 101325
    then [("barometric_pressure", JValue.num c.barometric_pressure)] else [])
  ++ (if includeDefaults = true ∨ c.rain ≠ false
    then [("rain", JValue.bool c.rain)] else [])
  ++ (if includeDefaults = true ∨ c.snow_on_ground ≠ false
    then [("snow_on_ground", JValue.bool c.snow_on_ground)] else [])

/-- A `HumidityCondition` is well formed when its fields satisfy the declared
constraints. -/
def HumidityCondition.wf (c : HumidityCondition) : Prop :=
  c.type = "HumidityCondition" ∧
  (31000 ≤ c.barometric_pressure ∧ c.barometric_pressure ≤ 120000)

instance (c : HumidityCondition) : Decidable c.wf := by
  unfold HumidityCondition.wf; infer_instance

/-- `WindCondition`: wind conditions on a design day. -/
structure WindCondition where
  type : String := "WindCondition"
  wind_speed : ℚ
  wind_direction : ℚ := 0
deriving Repr, DecidableEq

/-- Validation of `WindCondition`: `type` an anchored literal with default,
`wind_speed` a required float in [0, 40], `wind_direction` an optional float
in [0, 360] with default 0. -/
def WindCondition.validate (o : List (String × JValue)) :
    VResult WindCondition :=
  let rt := typeTag o "WindCondition"
  let rs := reqFloat o "wind_speed" (some 0) (some 40)
  let rd := optFloat o "wind_direction" 0 (some 0) (some 360)
  match rt, rs, rd with
  | .ok t, .ok s, .ok d => .ok ⟨t, s, d⟩
  | rt, rs, rd => .error (errsOf rt ++ errsOf rs ++ errsOf rd)

/-- Serialization of `WindCondition` in field-declaration order; with
`includeDefaults = false`, fields equal to their declared default are
omitted. -/
def WindCondition.serialize (c : WindCondition) (includeDefaults : Bool) :
    List (String × JValue) :=
  (if includeDefaults = true ∨ c.type ≠ "WindCondition"
    then [("type", JValue.str c.type)] else [])
  ++ [("wind_speed", JValue.num c.wind_speed)]
  ++ (if includeDefaults = true ∨ c.wind_direction ≠ 0
    then [("wind_direction", JValue.num c.wind_direction)] else [])

/-- A `WindCondition` is well formed when its fields satisfy the declared
constraints. -/
def WindCondition.wf (c : WindCondition) : Prop :=
  c.type = "WindCondition" ∧
  (0 ≤ c.wind_speed ∧ c.wind_speed ≤ 40) ∧
  (0 ≤ c.wind_direction ∧ c.wind_direction ≤ 360)

instance (c : WindCondition) : Decidable c.wf := by
  unfold WindCondition.wf; infer_instance

/-- Modelled from the spec: `honeybee_schema.datetime.Date` (imported by the
source but not part of the provided sources) — a calendar month/day
representation used by both sky-condition variants. -/
structure Date where
  month : Int
  day : Int
deriving Repr, DecidableEq

/-- A required integer field (a JSON number with denominator 1). -/
def reqInt (o : List (String × JValue)) (name : String) : VResult Int :=
  match getField o name with
  | none => .error (fieldErr name .missingField)
  | some (.num q) =>
      if q.den = 1 then .ok q.num else .error (fieldErr name .typeMismatch)
  | some _ => .error (fieldErr name .typeMismatch)

/-- Modelled from the spec: validation of a `Date` mapping requires integer
`month` and `day` fields. -/
def Date.validate (o : List (String × JValue)) : VResult Date :=
  let rm := reqInt o "month"
  let rd := reqInt o "day"
  match rm, rd with
  | .ok m, .ok d => .ok ⟨m, d⟩
  | rm, rd => .error (errsOf rm ++ errsOf rd)

/-- Modelled from the spec: serialization of a `Date` emits its month and
day as JSON numbers. -/
def Date.serialize (d : Date) : List (String × JValue) :=
  [("month", JValue.num (d.month : ℚ)), ("day", JValue.num (d.day : ℚ))]

/-- `ASHRAEClearSky`: sky conditions on a design day via the clear-sky model. -/
structure ASHRAEClearSky where
  type : String := "ASHRAEClearSky"
  date : Date
  clearness : ℚ
  daylight_savings : Bool := false
deriving Repr, DecidableEq

/-- Validation of `ASHRAEClearSky`: `type` an anchored literal with default,
`date` a required nested `Date`, `clearness` a required float in [0, 1.2],
`daylight_savings` an optional boolean defaulting to false. -/
def ASHRAEClearSky.validate (o : List (String × JValue)) :
    VResult ASHRAEClearSky :=
  let rt := typeTag o "ASHRAEClearSky"
  let rd := reqNested o "date" Date.validate
  let rc := reqFloat o "clearness" (some 0) (some (mkRat 6 5))
  let rs := optBool o "daylight_savings" false
  match rt, rd, rc, rs with
  | .ok t, .ok d, .ok c, .ok s => .ok ⟨t, d, c, s⟩
  | rt, rd, rc, rs =>
      .error (errsOf rt ++ errsOf rd ++ errsOf rc ++ errsOf rs)

/-- Serialization of `ASHRAEClearSky` in field-declaration order; with
`includeDefaults = false`, fields equal to their declared default are
omitted. -/
def ASHRAEClearSky.serialize (c : ASHRAEClearSky) (includeDefaults : Bool) :
    List (String × JValue) :=
  (if includeDefaults = true ∨ c.type ≠ "ASHRAEClearSky"
    then [("type", JValue.str c.type)] else [])
  ++ [("date", JValue.obj c.date.serialize),
      ("clearness", JValue.num c.clearness)]
  ++ (if includeDefaults = true ∨ c.daylight_savings ≠ false
    then [("daylight_savings", JValue.bool c.daylight_savings)] else [])

/-- An `ASHRAEClearSky` is well formed when its fields satisfy the declared
constraints. -/
def ASHRAEClearSky.wf (c : ASHRAEClearSky) : Prop :=
  c.type = "ASHRAEClearSky" ∧ (0 ≤ c.clearness ∧ c.clearness ≤ mkRat 6 5)

instance (c : ASHRAEClearSky) : Decidable c.wf := by
  unfold ASHRAEClearSky.wf; infer_instance

/-- `ASHRAETau`: sky conditions on a design day via the tau model. -/
structure ASHRAETau where
  type : String := "ASHRAETau"
  date : Date
  tau_b : ℚ
  tau_d : ℚ
  daylight_savings : Bool := false
deriving Repr, DecidableEq

/-- Validation of `ASHRAETau`: `type` an anchored literal with default,
`date` a required nested `Date`, `tau_b` a required float in [0, 1.2],
`tau_d` a required float in [0, 3], `daylight_savings` an optional boolean
defaulting to false. -/
def ASHRAETau.validate (o : List (String × JValue)) : VResult ASHRAETau :=
  let rt := typeTag o "ASHRAETau"
  let rd := reqNested o "date" Date.validate
  let rb := reqFloat o "tau_b" (some 0) (some (mkRat 6 5))
  let rtd := reqFloat o "tau_d" (some 0) (some 3)
  let rs := optBool o "daylight_savings" false
  match rt, rd, rb, rtd, rs with
  | .ok t, .ok d, .ok b, .ok td, .ok s => .ok ⟨t, d, b, td, s⟩
  | rt, rd, rb, rtd, rs =>
      .error (errsOf rt ++ errsOf rd ++ errsOf rb ++ errsOf rtd ++ errsOf rs)

/-- Serialization of `ASHRAETau` in field-declaration order; with
`includeDefaults = false`, fields equal to their declared default are
omitted. -/
def ASHRAETau.serialize (c : ASHRAETau) (includeDefaults : Bool) :
    List (String × JValue) :=
  (if includeDefaults = true ∨ c.type ≠ "ASHRAETau"
    then [("type", JValue.str c.type)] else [])
  ++ [("date", JValue.obj c.date.serialize),
      ("tau_b", JValue.num c.tau_b),
      ("tau_d", JValue.num c.tau_d)]
  ++ (if includeDefaults = true ∨ c.daylight_savings ≠ false
    then [("daylight_savings", JValue.bool c.daylight_savings)] else [])

/-- An `ASHRAETau` is well formed when its fields satisfy the declared
constraints. -/
def ASHRAETau.wf (c : ASHRAETau) : Prop :=
  c.type = "ASHRAETau" ∧ (0 ≤ c.tau_b ∧ c.tau_b ≤ mkRat 6 5) ∧
  (0 ≤ c.tau_d ∧ c.tau_d ≤ 3)

instance (c : ASHRAETau) : Decidable c.wf := by
  unfold ASHRAETau.wf; infer_instance

/-- The value of the `Union[ASHRAEClearSky, ASHRAETau]` sky-condition field. -/
inductive SkyCondition where
  | clearSky (c : ASHRAEClearSky)
  | tau (t : ASHRAETau)
deriving Repr, DecidableEq

/-- Validation of the `Union[ASHRAEClearSky, ASHRAETau]` field: as pydantic
v1 does for an untagged union, the variants are attempted in declaration
order and the first success wins; if both fail, the errors of both variants
are reported. -/
def validateSkyObj (o : List (String × JValue)) : VResult SkyCondition :=
  match ASHRAEClearSky.validate o with
  | .ok c => .ok (.clearSky c)
  | .error e1 =>
      match ASHRAETau.validate o with
      | .ok t => .ok (.tau t)
      | .error e2 => .error (e1 ++ e2)

/-- Serialization of a sky condition delegates to the active variant. -/
def SkyCondition.serialize (s : SkyCondition) (includeDefaults : Bool) :
    List (String × JValue) :=
  match s with
  | .clearSky c => c.serialize includeDefaults
  | .tau t => t.serialize includeDefaults

/-- A sky condition is well formed when its active variant is. -/
def SkyCondition.wf : SkyCondition → Prop
  | .clearSky c => c.wf
  | .tau t => t.wf

instance (s : SkyCondition) : Decidable s.wf :=
  match s with
  | .clearSky c => inferInstanceAs (Decidable c.wf)
  | .tau t => inferInstanceAs (Decidable t.wf)

/-- `DesignDayTypes` enumeration exactly as declared in the source (note:
the source declares Sunday through Friday but no Saturday member). -/
inductive DesignDayTypes where
  | summer_design_day
  | winter_design_day
  | sunday
  | monday
  | tuesday
  | wednesday
  | thursday
  | friday
  | holiday
  | custom_day1
  | custom_day2
deriving Repr, DecidableEq

/-- The string value of each `DesignDayTypes` member. -/
def DesignDayTypes.toStr : DesignDayTypes → String
  | .summer_design_day => "SummerDesignDay"
  | .winter_design_day => "WinterDesignDay"
  | .sunday => "Sunday"
  | .monday => "Monday"
  | .tuesday => "Tuesday"
  | .wednesday => "Wednesday"
  | .thursday => "Thursday"
  | .friday => "Friday"
  | .holiday => "Holiday"
  | .custom_day1 => "CustomDay1"
  | .custom_day2 => "CustomDay2"

/-- Parse a raw string into a `DesignDayTypes` member. -/
def DesignDayTypes.fromStr : String → Option DesignDayTypes
  | "SummerDesignDay" => some .summer_design_day
  | "WinterDesignDay" => some .winter_design_day
  | "Sunday" => some .sunday
  | "Monday" => some .monday
  | "Tuesday" => some .tuesday
  | "Wednesday" => some .wednesday
  | "Thursday" => some .thursday
  | "Friday" => some .friday
  | "Holiday" => some .holiday
  | "CustomDay1" => some .custom_day1
  | "CustomDay2" => some .custom_day2
  | _ => none

/-- `DesignDay`: the aggregate design-day object.  The `name` field is
modelled from the spec: it is contributed by `NamedEnergyBaseModel`
(imported by the source but not part of the provided sources), which gives
every named energy object a required `name` string. -/
structure DesignDay where
  name : String
  type : String := "DesignDay"
  day_type : DesignDayTypes
  dry_bulb_condition : DryBulbCondition
  humidity_condition : HumidityCondition
  wind_condition : WindCondition
  sky_condition : SkyCondition
deriving Repr, DecidableEq

/-- Validation of `DesignDay`: a required `name` string (from
`NamedEnergyBaseModel`, modelled from the spec), `type` an anchored literal
with default, `day_type` a required `DesignDayTypes` member, and the four
required nested conditions, each delegated to its own validator with nested
errors carrying the sub-condition's field name as a `loc` path prefix; all
field errors are collected. -/
def DesignDay.validate (o : List (String × JValue)) : VResult DesignDay :=
  let rn := reqStr o "name"
  let rt := typeTag o "DesignDay"
  let rdt := reqEnum o "day_type" DesignDayTypes.fromStr
  let rdb := reqNested o "dry_bulb_condition" DryBulbCondition.validate
  let rh := reqNested o "humidity_condition" HumidityCondition.validate
  let rw := reqNested o "wind_condition" WindCondition.validate
  let rs := reqNested o "sky_condition" validateSkyObj
  match rn, rt, rdt, rdb, rh, rw, rs with
  | .ok n, .ok t, .ok dt, .ok db, .ok h, .ok w, .ok s =>
      .ok ⟨n, t, dt, db, h, w, s⟩
  | rn, rt, rdt, rdb, rh, rw, rs =>
      .error (errsOf rn ++ errsOf rt ++ errsOf rdt ++ errsOf rdb ++
        errsOf rh ++ errsOf rw ++ errsOf rs)

/-- Serialization of `DesignDay` in field-declaration order (base-class
`name` first), nested conditions serialized recursively; with
`includeDefaults = false`, fields equal to their declared default are
omitted. -/
def DesignDay.serialize (d : DesignDay) (includeDefaults : Bool) :
    List (String × JValue) :=
  [("name", JValue.str d.name)]
  ++ (if includeDefaults = true ∨ d.type ≠ "DesignDay"
    then [("type", JValue.str d.type)] else [])
  ++ [("day_type", JValue.str d.day_type.toStr),
      ("dry_bulb_condition", JValue.obj (d.dry_bulb_condition.serialize includeDefaults)),
      ("humidity_condition", JValue.obj (d.humidity_condition.serialize includeDefaults)),
      ("wind_condition", JValue.obj (d.wind_condition.serialize includeDefaults)),
      ("sky_condition", JValue.obj (d.sky_condition.serialize includeDefaults))]

/-- A `DesignDay` is well formed when its discriminator is the declared
literal and all four sub-conditions are well formed. -/
def DesignDay.wf (d : DesignDay) : Prop :=
  d.type = "DesignDay" ∧ d.dry_bulb_condition.wf ∧ d.humidity_condition.wf ∧
  d.wind_condition.wf ∧ d.sky_condition.wf

instance (d : DesignDay) : Decidable d.wf := by
  unfold DesignDay.wf; infer_instance

/-- A concrete well-formed design day used to instantiate universally
quantified theorems. -/
def sampleDesignDay : DesignDay where
  name := "Boston Heating Design Day"
  day_type := .winter_design_day
  dry_bulb_condition := ⟨"DryBulbCondition", -14, 0⟩
  humidity_condition := ⟨"HumidityCondition", .wetbulb, -14, 101325, false, false⟩
  wind_condition := ⟨"WindCondition", 10, 270⟩
  sky_condition := .clearSky ⟨"ASHRAEClearSky", ⟨1, 21⟩, 0, false⟩

/-- The tau-shaped sky-condition payload of the spec's routing example,
parameterized by its discriminator value. -/
def tauPayload (tag : Option String) : List (String × JValue) :=
  (match tag with
    | some s => [("type", JValue.str s)]
    | none => []) ++
  [("date", JValue.obj [("month", JValue.num 7), ("day", JValue.num 21)]),
    ("tau_b", JValue.num (mkRat 1 2)), ("tau_d", JValue.num 1)]

/-- A dry-bulb mapping violating both of its numeric constraints at once. -/
def badDryBulbInput : List (String × JValue) :=
  [("dry_bulb_max", JValue.num 85), ("dry_bulb_range", JValue.num (-1))]

/-- A design-day mapping whose `dry_bulb_condition` sub-mapping is invalid. -/
def badDesignDayInput : List (String × JValue) :=
  [("dry_bulb_condition", JValue.obj badDryBulbInput)]

/-- A sky-condition mapping rejected by both union variants: `clearness` is
out of range for the clear-sky variant and the tau fields are missing for
the tau variant. -/
def badSkyInput : List (String × JValue) :=
  [("date", JValue.obj [("month", JValue.num 7), ("day", JValue.num 21)]),
    ("clearness", JValue.num 2)]

/-- A design-day mapping whose `sky_condition` sub-mapping is invalid. -/
def badSkyDesignDayInput : List (String × JValue) :=
  [("sky_condition", JValue.obj badSkyInput)]

/-- A design-day mapping with two invalid sub-conditions at once. -/
def badTwoChannelDesignDayInput : List (String × JValue) :=
  [("dry_bulb_condition", JValue.obj badDryBulbInput),
    ("sky_condition", JValue.obj badSkyInput)]

/-- The upper bound `1.2` of the source's `clearness` and `tau_b` fields,
written as an explicitly reduced rational. -/
theorem mkRat_six_five_eq : mkRat 6 5 = (1.2 : ℚ) := by
  norm_num [Rat.mkRat_eq_div]

/-- Parsing inverts printing for `HumidityTypes`. -/
theorem humidityTypes_fromStr_toStr (h : HumidityTypes) :
    HumidityTypes.fromStr h.toStr = some h := by
  cases h <;> rfl

/-- Parsing inverts printing for `DesignDayTypes`. -/
theorem designDayTypes_fromStr_toStr (d : DesignDayTypes) :
    DesignDayTypes.fromStr d.toStr = some d := by
  cases d <;> rfl

/-- Round trip for `DryBulbCondition`: validating the full serialization of a
well-formed instance returns that instance. -/
theorem dryBulb_validate_serialize (c : DryBulbCondition)
    (h : c.wf) : DryBulbCondition.validate (c.serialize true) = .ok c := by
  obtain ⟨t, a, b⟩ := c
  obtain ⟨ht, ⟨h1, h2⟩, h3⟩ := h
  subst ht
  simp [DryBulbCondition.validate, DryBulbCondition.serialize, typeTag,
    reqFloat, getField, boundsOk, h1, h2, h3]

/-- Round trip for `HumidityCondition`. -/
theorem humidity_validate_serialize (c : HumidityCondition)
    (h : c.wf) : HumidityCondition.validate (c.serialize true) = .ok c := by
  obtain ⟨t, ht, hv, bp, r, s⟩ := c
  obtain ⟨hty, h1, h2⟩ := h
  subst hty
  simp [HumidityCondition.validate, HumidityCondition.serialize, typeTag,
    reqEnum, reqFloat, optFloat, optBool, getField, boundsOk,
    humidityTypes_fromStr_toStr, h1, h2]

/-- Round trip for `WindCondition`. -/
theorem wind_validate_serialize (c : WindCondition)
    (h : c.wf) : WindCondition.validate (c.serialize true) = .ok c := by
  obtain ⟨t, s, d⟩ := c
  obtain ⟨ht, ⟨h1, h2⟩, h3, h4⟩ := h
  subst ht
  simp [WindCondition.validate, WindCondition.serialize, typeTag,
    reqFloat, optFloat, getField, boundsOk, h1, h2, h3, h4]

/-- Round trip for the spec-modelled `Date` (no constraints, so it holds for
every instance). -/
theorem date_validate_serialize (d : Date) :
    Date.validate d.serialize = .ok d := by
  simp [Date.validate, Date.serialize, reqInt, getField,
    Rat.den_intCast, Rat.num_intCast]

/-- Round trip for `ASHRAEClearSky`. -/
theorem clearSky_validate_serialize (c : ASHRAEClearSky)
    (h : c.wf) : ASHRAEClearSky.validate (c.serialize true) = .ok c := by
  obtain ⟨t, d, cl, s⟩ := c
  obtain ⟨ht, h1, h2⟩ := h
  subst ht
  simp [ASHRAEClearSky.validate, ASHRAEClearSky.serialize, typeTag,
    reqNested, reqFloat, optBool, getField, boundsOk,
    date_validate_serialize, h1, h2]

/-- Round trip for `ASHRAETau`. -/
theorem tau_validate_serialize (c : ASHRAETau)
    (h : c.wf) : ASHRAETau.validate (c.serialize true) = .ok c := by
  obtain ⟨t, d, b, td, s⟩ := c
  obtain ⟨ht, ⟨h1, h2⟩, h3, h4⟩ := h
  subst ht
  simp [ASHRAETau.validate, ASHRAETau.serialize, typeTag,
    reqNested, reqFloat, optBool, getField, boundsOk,
    date_validate_serialize, h1, h2, h3, h4]

/-- The clear-sky validator rejects the serialization of a well-formed tau
instance: the discriminator does not match and `clearness` is absent. -/
theorem clearSky_rejects_tau_serialize (t : ASHRAETau) (h : t.wf) :
    ASHRAEClearSky.validate (t.serialize true) =
      .error [⟨["type"],
          .constraintViolation "string does not match regex ^ASHRAEClearSky$"⟩,
        ⟨["clearness"], .missingField⟩] := by
  obtain ⟨ty, d, b, td, s⟩ := t
  obtain ⟨hty, _, _⟩ := h
  subst hty
  simp [ASHRAEClearSky.validate, ASHRAETau.serialize, typeTag,
    reqNested, reqFloat, optBool, getField, fieldErr, errsOf,
    date_validate_serialize]

/-- Round trip for the sky-condition union: the serialization of a
well-formed sky condition re-validates to the same active variant. -/
theorem validateSkyObj_serialize (s : SkyCondition) (h : s.wf) :
    validateSkyObj (s.serialize true) = .ok s := by
  cases s with
  | clearSky c =>
      simp [validateSkyObj, SkyCondition.serialize,
        clearSky_validate_serialize c h]
  | tau t =>
      simp [validateSkyObj, SkyCondition.serialize,
        clearSky_rejects_tau_serialize t h,
        tau_validate_serialize t h]

/-- Round trip for the `DesignDay` aggregate. -/
theorem designDay_validate_serialize (d : DesignDay) (h : d.wf) :
    DesignDay.validate (d.serialize true) = .ok d := by
  obtain ⟨n, t, dt, db, hc, wc, sc⟩ := d
  obtain ⟨ht, hdb, hhc, hwc, hsc⟩ := h
  subst ht
  simp [DesignDay.validate, DesignDay.serialize, reqStr, typeTag, reqEnum,
    reqNested, getField, designDayTypes_fromStr_toStr,
    dryBulb_validate_serialize _ hdb,
    humidity_validate_serialize _ hhc,
    wind_validate_serialize _ hwc,
    validateSkyObj_serialize _ hsc]

/-- C1: for every valid model instance (the leaf condition models, the two
sky-condition variants, and the `DesignDay` aggregate), validating the
serialization produced with `includeDefaults = true` returns a value equal
to the original instance. -/
theorem C1_round_trip :
    (∀ c : DryBulbCondition, c.wf →
      DryBulbCondition.validate (c.serialize true) = .ok c) ∧
    (∀ c : HumidityCondition, c.wf →
      HumidityCondition.validate (c.serialize true) = .ok c) ∧
    (∀ c : WindCondition, c.wf →
      WindCondition.validate (c.serialize true) = .ok c) ∧
    (∀ c : ASHRAEClearSky, c.wf →
      ASHRAEClearSky.validate (c.serialize true) = .ok c) ∧
    (∀ c : ASHRAETau, c.wf →
      ASHRAETau.validate (c.serialize true) = .ok c) ∧
    (∀ d : DesignDay, d.wf →
      DesignDay.validate (d.serialize true) = .ok d) :=
  ⟨dryBulb_validate_serialize, humidity_validate_serialize,
    wind_validate_serialize, clearSky_validate_serialize,
    tau_validate_serialize, designDay_validate_serialize⟩

/-- C1 witness: the round-trip law instantiated at a concrete well-formed
design day. -/
theorem C1_round_trip_witness :
    sampleDesignDay.wf ∧
    DesignDay.validate (sampleDesignDay.serialize true) = .ok sampleDesignDay :=
  ⟨by decide, C1_round_trip.2.2.2.2.2 sampleDesignDay (by decide)⟩

/-- C2: the `day_type` enumeration accepts `Holiday` and rejects `Funday`,
but — contrary to the claim — it also rejects `Saturday`, because the
source's `DesignDayTypes` enumeration declares Sunday through Friday and
omits a Saturday member; no member's string value is `Saturday`. -/
theorem C2_day_type_enumeration :
    DesignDayTypes.fromStr "Holiday" = some .holiday ∧
    DesignDayTypes.fromStr "Funday" = none ∧
    DesignDayTypes.fromStr "Saturday" = none ∧
    reqEnum [("day_type", JValue.str "Holiday")] "day_type"
      DesignDayTypes.fromStr = .ok .holiday ∧
    reqEnum [("day_type", JValue.str "Funday")] "day_type"
      DesignDayTypes.fromStr = .error [⟨["day_type"],
        .constraintViolation "value is not a valid enumeration member"⟩] ∧
    reqEnum [("day_type", JValue.str "Saturday")] "day_type"
      DesignDayTypes.fromStr = .error [⟨["day_type"],
        .constraintViolation "value is not a valid enumeration member"⟩] ∧
    (DesignDayTypes.toStr .sunday = "Sunday" ∧
      DesignDayTypes.toStr .monday = "Monday" ∧
      DesignDayTypes.toStr .tuesday = "Tuesday" ∧
      DesignDayTypes.toStr .wednesday = "Wednesday" ∧
      DesignDayTypes.toStr .thursday = "Thursday" ∧
      DesignDayTypes.toStr .friday = "Friday") :=
  ⟨rfl, rfl, rfl, rfl, rfl, rfl, rfl, rfl, rfl, rfl, rfl, rfl⟩

/-- C3: validation of a dry-bulb mapping succeeds with exactly the supplied
values precisely when `dry_bulb_max` lies in [-90, 70] and
`dry_bulb_range ≥ 0`; for `dry_bulb_max = 85` it fails with a constraint
violation whose location names `dry_bulb_max`. -/
theorem C3_dry_bulb_bounds :
    (∀ a b : ℚ,
      DryBulbCondition.validate
        [("dry_bulb_max", JValue.num a), ("dry_bulb_range", JValue.num b)] =
        .ok ⟨"DryBulbCondition", a, b⟩ ↔ ((-90 ≤ a ∧ a ≤ 70) ∧ 0 ≤ b)) ∧
    DryBulbCondition.validate
      [("dry_bulb_max", JValue.num 85), ("dry_bulb_range", JValue.num 10)] =
      .error [⟨["dry_bulb_max"],
        .constraintViolation "value out of declared numeric bounds"⟩] := by
  refine ⟨fun a b => ?_, by rfl⟩
  by_cases h1 : (-90 : ℚ) ≤ a <;> by_cases h2 : a ≤ 70 <;>
    by_cases h3 : (0 : ℚ) ≤ b <;>
    simp [DryBulbCondition.validate, typeTag, reqFloat, getField, boundsOk,
      h1, h2, h3]

/-- C4: sky-condition validation routes on the discriminator: the tau-shaped
payload tagged `ASHRAETau` validates as the tau variant; with a
discriminator matching neither accepted value the validation fails and the
error names the discriminator field `type` and both accepted literals; the
same payload tagged `ASHRAEClearSky` fails with `clearness` reported
missing. -/
theorem C4_discriminator_routing :
    validateSkyObj (tauPayload (some "ASHRAETau")) =
      .ok (.tau ⟨"ASHRAETau", ⟨7, 21⟩, mkRat 1 2, 1, false⟩) ∧
    (validateSkyObj (tauPayload (some "Bogus")) =
      .error [⟨["type"],
          .constraintViolation "string does not match regex ^ASHRAEClearSky$"⟩,
        ⟨["clearness"], .missingField⟩,
        ⟨["type"],
          .constraintViolation "string does not match regex ^ASHRAETau$"⟩] ∧
      FieldError.mk ["type"]
          (.constraintViolation "string does not match regex ^ASHRAEClearSky$") ∈
        errsOf (validateSkyObj (tauPayload (some "Bogus"))) ∧
      FieldError.mk ["type"]
          (.constraintViolation "string does not match regex ^ASHRAETau$") ∈
        errsOf (validateSkyObj (tauPayload (some "Bogus")))) ∧
    validateSkyObj (tauPayload (some "ASHRAEClearSky")) =
      .error [⟨["clearness"], .missingField⟩,
        ⟨["type"],
          .constraintViolation "string does not match regex ^ASHRAETau$"⟩] ∧
    FieldError.mk ["clearness"] .missingField ∈
      errsOf (validateSkyObj (tauPayload (some "ASHRAEClearSky"))) :=
  ⟨rfl, ⟨rfl, by decide, by decide⟩, rfl, by decide⟩

/-- C9: for a sky-condition mapping without a discriminator, the union's
variants are attempted in declaration order, so any mapping accepted by
`ASHRAEClearSky` — including the untyped example that also carries `tau_b`
and `tau_d` — validates as the clear-sky variant with the discriminator
defaulted, the tau fields absent from the result. -/
theorem C9_union_declaration_order :
    (∀ (o : List (String × JValue)) (c : ASHRAEClearSky),
      ASHRAEClearSky.validate o = .ok c →
      validateSkyObj o = .ok (.clearSky c)) ∧
    validateSkyObj
      [("date", JValue.obj [("month", JValue.num 7), ("day", JValue.num 21)]),
        ("clearness", JValue.num 1), ("tau_b", JValue.num (mkRat 1 2)),
        ("tau_d", JValue.num 1)] =
      .ok (.clearSky ⟨"ASHRAEClearSky", ⟨7, 21⟩, 1, false⟩) :=
  ⟨fun o c h => by simp [validateSkyObj, h], rfl⟩

/-- C9 witness: the declaration-order rule applied at the concrete untyped
payload containing both a valid clear-sky field set and the tau fields. -/
theorem C9_union_declaration_order_witness :
    validateSkyObj
      [("date", JValue.obj [("month", JValue.num 7), ("day", JValue.num 21)]),
        ("clearness", JValue.num 1), ("tau_b", JValue.num (mkRat 1 2)),
        ("tau_d", JValue.num 1)] =
      .ok (.clearSky ⟨"ASHRAEClearSky", ⟨7, 21⟩, 1, false⟩) :=
  C9_union_declaration_order.1
    [("date", JValue.obj [("month", JValue.num 7), ("day", JValue.num 21)]),
      ("clearness", JValue.num 1), ("tau_b", JValue.num (mkRat 1 2)),
      ("tau_d", JValue.num 1)]
    ⟨"ASHRAEClearSky", ⟨7, 21⟩, 1, false⟩ (by rfl)

/-- Mapping an error into a `withLoc`-prefixed list. -/
theorem mem_withLoc {p : String} {es : List FieldError} {e : FieldError}
    (he : e ∈ es) : FieldError.mk (p :: e.loc) e.kind ∈ withLoc p es :=
  List.mem_map.mpr ⟨e, he, rfl⟩

/-- C5 counterexample: validation is not fail-fast — on an input with two
constraint violations, both violations are reported (the returned error list
has length 2, not 1). -/
theorem C5_fail_fast_counterexample :
    DryBulbCondition.validate badDryBulbInput =
      .error [⟨["dry_bulb_max"],
          .constraintViolation "value out of declared numeric bounds"⟩,
        ⟨["dry_bulb_range"],
          .constraintViolation "value out of declared numeric bounds"⟩] ∧
    (errsOf (DryBulbCondition.validate badDryBulbInput)).length = 2 :=
  ⟨rfl, rfl⟩

/-- Whenever both of a dry-bulb mapping's numeric fields violate their
bounds, both violations appear in the returned error list. -/
theorem dryBulb_collects_both_violations
    {o : List (String × JValue)} {a b : ℚ}
    (hga : getField o "dry_bulb_max" = some (.num a))
    (hva : a < -90 ∨ 70 < a)
    (hgb : getField o "dry_bulb_range" = some (.num b)) (hvb : b < 0) :
    ∃ es, DryBulbCondition.validate o = .error es ∧
      FieldError.mk ["dry_bulb_max"]
        (.constraintViolation "value out of declared numeric bounds") ∈ es ∧
      FieldError.mk ["dry_bulb_range"]
        (.constraintViolation "value out of declared numeric bounds") ∈ es := by
  have hra : reqFloat o "dry_bulb_max" (some (-90)) (some 70) =
      .error (fieldErr "dry_bulb_max"
        (.constraintViolation "value out of declared numeric bounds")) := by
    rcases hva with h | h
    · have h' : ¬ (-90 : ℚ) ≤ a := not_le.mpr h
      simp [reqFloat, hga, boundsOk, h']
    · have h' : ¬ a ≤ (70 : ℚ) := not_le.mpr h
      simp [reqFloat, hga, boundsOk, h']
  have hrb : reqFloat o "dry_bulb_range" (some 0) none =
      .error (fieldErr "dry_bulb_range"
        (.constraintViolation "value out of declared numeric bounds")) := by
    have h' : ¬ (0 : ℚ) ≤ b := not_le.mpr hvb
    simp [reqFloat, hgb, boundsOk, h']
  simp only [DryBulbCondition.validate, hra, hrb]
  cases typeTag o "DryBulbCondition" <;>
    exact ⟨_, rfl, by simp [errsOf, fieldErr], by simp [errsOf, fieldErr]⟩

/-- A failing `dry_bulb_condition` sub-mapping aborts `DesignDay`
construction and its errors are propagated under that field's prefix. -/
theorem designDay_nested_dryBulb_error
    {o sub : List (String × JValue)} {es : List FieldError}
    (hget : getField o "dry_bulb_condition" = some (.obj sub))
    (hval : DryBulbCondition.validate sub = .error es) :
    ∃ all, DesignDay.validate o = .error all ∧
      ∀ e ∈ es, FieldError.mk ("dry_bulb_condition" :: e.loc) e.kind ∈ all := by
  have hdb : reqNested o "dry_bulb_condition" DryBulbCondition.validate =
      .error (withLoc "dry_bulb_condition" es) := by
    simp [reqNested, hget, hval]
  simp only [DesignDay.validate, hdb]
  cases reqStr o "name" <;> cases typeTag o "DesignDay" <;>
    cases reqEnum o "day_type" DesignDayTypes.fromStr <;>
    cases reqNested o "humidity_condition" HumidityCondition.validate <;>
    cases reqNested o "wind_condition" WindCondition.validate <;>
    cases reqNested o "sky_condition" validateSkyObj <;>
    exact ⟨_, rfl, fun e he => by
      have hm := mem_withLoc (p := "dry_bulb_condition") he
      simp only [errsOf, List.mem_append, List.nil_append, List.append_assoc]
      tauto⟩

/-- A failing `humidity_condition` sub-mapping aborts `DesignDay`
construction and its errors are propagated under that field's prefix. -/
theorem designDay_nested_humidity_error
    {o sub : List (String × JValue)} {es : List FieldError}
    (hget : getField o "humidity_condition" = some (.obj sub))
    (hval : HumidityCondition.validate sub = .error es) :
    ∃ all, DesignDay.validate o = .error all ∧
      ∀ e ∈ es, FieldError.mk ("humidity_condition" :: e.loc) e.kind ∈ all := by
  have hh : reqNested o "humidity_condition" HumidityCondition.validate =
      .error (withLoc "humidity_condition" es) := by
    simp [reqNested, hget, hval]
  simp only [DesignDay.validate, hh]
  cases reqStr o "name" <;> cases typeTag o "DesignDay" <;>
    cases reqEnum o "day_type" DesignDayTypes.fromStr <;>
    cases reqNested o "dry_bulb_condition" DryBulbCondition.validate <;>
    cases reqNested o "wind_condition" WindCondition.validate <;>
    cases reqNested o "sky_condition" validateSkyObj <;>
    exact ⟨_, rfl, fun e he => by
      have hm := mem_withLoc (p := "humidity_condition") he
      simp only [errsOf, List.mem_append, List.nil_append, List.append_assoc]
      tauto⟩

/-- A failing `wind_condition` sub-mapping aborts `DesignDay` construction
and its errors are propagated under that field's prefix. -/
theorem designDay_nested_wind_error
    {o sub : List (String × JValue)} {es : List FieldError}
    (hget : getField o "wind_condition" = some (.obj sub))
    (hval : WindCondition.validate sub = .error es) :
    ∃ all, DesignDay.validate o = .error all ∧
      ∀ e ∈ es, FieldError.mk ("wind_condition" :: e.loc) e.kind ∈ all := by
  have hw : reqNested o "wind_condition" WindCondition.validate =
      .error (withLoc "wind_condition" es) := by
    simp [reqNested, hget, hval]
  simp only [DesignDay.validate, hw]
  cases reqStr o "name" <;> cases typeTag o "DesignDay" <;>
    cases reqEnum o "day_type" DesignDayTypes.fromStr <;>
    cases reqNested o "dry_bulb_condition" DryBulbCondition.validate <;>
    cases reqNested o "humidity_condition" HumidityCondition.validate <;>
    cases reqNested o "sky_condition" validateSkyObj <;>
    exact ⟨_, rfl, fun e he => by
      have hm := mem_withLoc (p := "wind_condition") he
      simp only [errsOf, List.mem_append, List.nil_append, List.append_assoc]
      tauto⟩

/-- A `sky_condition` sub-mapping rejected by the union aborts `DesignDay`
construction and the union's errors are propagated under that field's
prefix. -/
theorem designDay_nested_sky_error
    {o sub : List (String × JValue)} {es : List FieldError}
    (hget : getField o "sky_condition" = some (.obj sub))
    (hval : validateSkyObj sub = .error es) :
    ∃ all, DesignDay.validate o = .error all ∧
      ∀ e ∈ es, FieldError.mk ("sky_condition" :: e.loc) e.kind ∈ all := by
  have hs : reqNested o "sky_condition" validateSkyObj =
      .error (withLoc "sky_condition" es) := by
    simp [reqNested, hget, hval]
  simp only [DesignDay.validate, hs]
  cases reqStr o "name" <;> cases typeTag o "DesignDay" <;>
    cases reqEnum o "day_type" DesignDayTypes.fromStr <;>
    cases reqNested o "dry_bulb_condition" DryBulbCondition.validate <;>
    cases reqNested o "humidity_condition" HumidityCondition.validate <;>
    cases reqNested o "wind_condition" WindCondition.validate <;>
    exact ⟨_, rfl, fun e he => by
      have hm := mem_withLoc (p := "sky_condition") he
      simp only [errsOf, List.mem_append, List.nil_append, List.append_assoc]
      tauto⟩

/-- When two sub-conditions fail at once, the errors of both are returned
together, each under its own field prefix. -/
theorem designDay_two_nested_errors
    {o sub1 sub2 : List (String × JValue)} {es1 es2 : List FieldError}
    (hg1 : getField o "dry_bulb_condition" = some (.obj sub1))
    (hv1 : DryBulbCondition.validate sub1 = .error es1)
    (hg2 : getField o "sky_condition" = some (.obj sub2))
    (hv2 : validateSkyObj sub2 = .error es2) :
    ∃ all, DesignDay.validate o = .error all ∧
      (∀ e ∈ es1, FieldError.mk ("dry_bulb_condition" :: e.loc) e.kind ∈ all) ∧
      (∀ e ∈ es2, FieldError.mk ("sky_condition" :: e.loc) e.kind ∈ all) := by
  have hdb : reqNested o "dry_bulb_condition" DryBulbCondition.validate =
      .error (withLoc "dry_bulb_condition" es1) := by
    simp [reqNested, hg1, hv1]
  have hs : reqNested o "sky_condition" validateSkyObj =
      .error (withLoc "sky_condition" es2) := by
    simp [reqNested, hg2, hv2]
  simp only [DesignDay.validate, hdb, hs]
  cases reqStr o "name" <;> cases typeTag o "DesignDay" <;>
    cases reqEnum o "day_type" DesignDayTypes.fromStr <;>
    cases reqNested o "humidity_condition" HumidityCondition.validate <;>
    cases reqNested o "wind_condition" WindCondition.validate <;>
    exact ⟨_, rfl,
      fun e he => by
        have hm := mem_withLoc (p := "dry_bulb_condition") he
        simp only [errsOf, List.mem_append, List.nil_append, List.append_assoc]
        tauto,
      fun e he => by
        have hm := mem_withLoc (p := "sky_condition") he
        simp only [errsOf, List.mem_append, List.nil_append, List.append_assoc]
        tauto⟩

/-- C5 (amended): validation collects every constraint violation instead of
stopping at the first — when several fields violate their constraints on one
input, all the violations are returned together in one error list; for
`DesignDay`, any failing nested sub-condition (dry-bulb, humidity, wind, or
sky) aborts aggregate construction (the result is an error, never a partial
aggregate), every nested error is propagated with a path prefix identifying
which sub-condition produced it, and two simultaneously failing
sub-conditions are both reported. -/
theorem C5_error_accumulation :
    (∀ (o : List (String × JValue)) (a b : ℚ),
      getField o "dry_bulb_max" = some (.num a) → (a < -90 ∨ 70 < a) →
      getField o "dry_bulb_range" = some (.num b) → b < 0 →
      ∃ es, DryBulbCondition.validate o = .error es ∧
        FieldError.mk ["dry_bulb_max"]
          (.constraintViolation "value out of declared numeric bounds") ∈ es ∧
        FieldError.mk ["dry_bulb_range"]
          (.constraintViolation "value out of declared numeric bounds") ∈ es) ∧
    (∀ (o sub : List (String × JValue)) (es : List FieldError),
      getField o "dry_bulb_condition" = some (.obj sub) →
      DryBulbCondition.validate sub = .error es →
      ∃ all, DesignDay.validate o = .error all ∧
        ∀ e ∈ es,
          FieldError.mk ("dry_bulb_condition" :: e.loc) e.kind ∈ all) ∧
    (∀ (o sub : List (String × JValue)) (es : List FieldError),
      getField o "humidity_condition" = some (.obj sub) →
      HumidityCondition.validate sub = .error es →
      ∃ all, DesignDay.validate o = .error all ∧
        ∀ e ∈ es,
          FieldError.mk ("humidity_condition" :: e.loc) e.kind ∈ all) ∧
    (∀ (o sub : List (String × JValue)) (es : List FieldError),
      getField o "wind_condition" = some (.obj sub) →
      WindCondition.validate sub = .error es →
      ∃ all, DesignDay.validate o = .error all ∧
        ∀ e ∈ es, FieldError.mk ("wind_condition" :: e.loc) e.kind ∈ all) ∧
    (∀ (o sub : List (String × JValue)) (es : List FieldError),
      getField o "sky_condition" = some (.obj sub) →
      validateSkyObj sub = .error es →
      ∃ all, DesignDay.validate o = .error all ∧
        ∀ e ∈ es, FieldError.mk ("sky_condition" :: e.loc) e.kind ∈ all) ∧
    (∀ (o sub1 sub2 : List (String × JValue)) (es1 es2 : List FieldError),
      getField o "dry_bulb_condition" = some (.obj sub1) →
      DryBulbCondition.validate sub1 = .error es1 →
      getField o "sky_condition" = some (.obj sub2) →
      validateSkyObj sub2 = .error es2 →
      ∃ all, DesignDay.validate o = .error all ∧
        (∀ e ∈ es1,
          FieldError.mk ("dry_bulb_condition" :: e.loc) e.kind ∈ all) ∧
        (∀ e ∈ es2,
          FieldError.mk ("sky_condition" :: e.loc) e.kind ∈ all)) :=
  ⟨fun _ _ _ hga hva hgb hvb =>
      dryBulb_collects_both_violations hga hva hgb hvb,
    fun _ _ _ hget hval => designDay_nested_dryBulb_error hget hval,
    fun _ _ _ hget hval => designDay_nested_humidity_error hget hval,
    fun _ _ _ hget hval => designDay_nested_wind_error hget hval,
    fun _ _ _ hget hval => designDay_nested_sky_error hget hval,
    fun _ _ _ _ _ hg1 hv1 hg2 hv2 =>
      designDay_two_nested_errors hg1 hv1 hg2 hv2⟩

/-- C5 witness: the amended laws at concrete inputs — a dry-bulb mapping
violating both bounds reports both violations, a design-day mapping with an
out-of-range sky sub-condition reports the prefixed `clearness` violation,
and a design-day mapping with two bad sub-conditions reports both channels
at once. -/
theorem C5_error_accumulation_witness :
    (∃ es, DryBulbCondition.validate badDryBulbInput = .error es ∧
      FieldError.mk ["dry_bulb_max"]
        (.constraintViolation "value out of declared numeric bounds") ∈ es ∧
      FieldError.mk ["dry_bulb_range"]
        (.constraintViolation "value out of declared numeric bounds") ∈ es) ∧
    (∃ all, DesignDay.validate badSkyDesignDayInput = .error all ∧
      FieldError.mk ["sky_condition", "clearness"]
        (.constraintViolation "value out of declared numeric bounds") ∈ all) ∧
    (∃ all, DesignDay.validate badTwoChannelDesignDayInput = .error all ∧
      FieldError.mk ["dry_bulb_condition", "dry_bulb_max"]
        (.constraintViolation "value out of declared numeric bounds") ∈ all ∧
      FieldError.mk ["sky_condition", "clearness"]
        (.constraintViolation "value out of declared numeric bounds") ∈ all) := by
  refine ⟨?_, ?_, ?_⟩
  · exact C5_error_accumulation.1 badDryBulbInput 85 (-1) (by rfl)
      (Or.inr (by decide)) (by rfl) (by decide)
  · obtain ⟨all, h1, h2⟩ :=
      C5_error_accumulation.2.2.2.2.1 badSkyDesignDayInput badSkyInput
        [⟨["clearness"],
            .constraintViolation "value out of declared numeric bounds"⟩,
          ⟨["tau_b"], .missingField⟩, ⟨["tau_d"], .missingField⟩]
        (by rfl) (by rfl)
    exact ⟨all, h1, h2 ⟨["clearness"],
      .constraintViolation "value out of declared numeric bounds"⟩ (by decide)⟩
  · obtain ⟨all, h1, h2, h3⟩ :=
      C5_error_accumulation.2.2.2.2.2 badTwoChannelDesignDayInput
        badDryBulbInput badSkyInput
        [⟨["dry_bulb_max"],
            .constraintViolation "value out of declared numeric bounds"⟩,
          ⟨["dry_bulb_range"],
            .constraintViolation "value out of declared numeric bounds"⟩]
        [⟨["clearness"],
            .constraintViolation "value out of declared numeric bounds"⟩,
          ⟨["tau_b"], .missingField⟩, ⟨["tau_d"], .missingField⟩]
        (by rfl) (by rfl) (by rfl) (by rfl)
    exact ⟨all, h1,
      h2 ⟨["dry_bulb_max"],
        .constraintViolation "value out of declared numeric bounds"⟩
        (by decide),
      h3 ⟨["clearness"],
        .constraintViolation "value out of declared numeric bounds"⟩
        (by decide)⟩

/-- C6: absent optional fields take their declared defaults: a humidity
mapping with only the required fields validates with
`barometric_pressure = 101325`, `rain = false`, `snow_on_ground = false`,
and a wind mapping with only `wind_speed` validates with
`wind_direction = 0`. -/
theorem C6_declared_defaults :
    (∀ (ht : HumidityTypes) (hv : ℚ),
      HumidityCondition.validate
        [("humidity_type", JValue.str ht.toStr),
          ("humidity_value", JValue.num hv)] =
        .ok ⟨"HumidityCondition", ht, hv, 101325, false, false⟩) ∧
    (∀ ws : ℚ, 0 ≤ ws → ws ≤ 40 →
      WindCondition.validate [("wind_speed", JValue.num ws)] =
        .ok ⟨"WindCondition", ws, 0⟩) := by
  constructor
  · intro ht hv
    cases ht <;> rfl
  · intro ws h1 h2
    simp [WindCondition.validate, typeTag, reqFloat, optFloat, getField,
      boundsOk, h1, h2]

/-- C6 witness: the default laws at a concrete humidity mapping and a
concrete wind mapping. -/
theorem C6_declared_defaults_witness :
    HumidityCondition.validate
      [("humidity_type", JValue.str "Wetbulb"),
        ("humidity_value", JValue.num 20)] =
      .ok ⟨"HumidityCondition", .wetbulb, 20, 101325, false, false⟩ ∧
    WindCondition.validate [("wind_speed", JValue.num 10)] =
      .ok ⟨"WindCondition", 10, 0⟩ :=
  ⟨C6_declared_defaults.1 .wetbulb 20,
    C6_declared_defaults.2 10 (by decide) (by decide)⟩

/-- C7: serialization with `includeDefaults = false` omits exactly the
fields whose value equals their declared default: a `WindCondition` with
`wind_direction = 0` serializes without a `wind_direction` key (and with the
defaulted discriminator likewise omitted), while the non-default-valued
required `wind_speed` is always present. -/
theorem C7_partial_serialization :
    ∀ w : WindCondition,
      (getField (w.serialize false) "wind_direction" = none ↔
        w.wind_direction = 0) ∧
      (getField (w.serialize false) "type" = none ↔
        w.type = "WindCondition") ∧
      getField (w.serialize false) "wind_speed" =
        some (JValue.num w.wind_speed) := by
  intro w
  by_cases hd : w.wind_direction = 0 <;>
    by_cases ht : w.type = "WindCondition" <;>
    simp [WindCondition.serialize, getField, hd, ht]

/-- A successful discriminator check only ever returns the declared
literal. -/
theorem typeTag_ok_eq {o : List (String × JValue)} {lit t : String}
    (h : typeTag o lit = .ok t) : t = lit := by
  unfold typeTag at h
  split at h <;> (try split at h) <;> simp_all

/-- A validated `DryBulbCondition` carries the model's own name as its
discriminator. -/
theorem dryBulb_validate_ok_type
    {o : List (String × JValue)} {c : DryBulbCondition}
    (h : DryBulbCondition.validate o = .ok c) :
    c.type = "DryBulbCondition" := by
  simp only [DryBulbCondition.validate] at h
  split at h
  · rename_i t a b ht ha hb
    cases h
    exact typeTag_ok_eq ht
  · simp at h

/-- A supplied discriminator different from the model's name makes
`DryBulbCondition` validation fail. -/
theorem dryBulb_validate_bad_type
    {o : List (String × JValue)} {s : String} {c : DryBulbCondition}
    (hg : getField o "type" = some (.str s)) (hs : s ≠ "DryBulbCondition") :
    DryBulbCondition.validate o ≠ .ok c := by
  have ht : typeTag o "DryBulbCondition" = .error (fieldErr "type"
      (.constraintViolation
        ("string does not match regex ^" ++ "DryBulbCondition" ++ "$"))) := by
    simp [typeTag, hg, hs]
  simp only [DryBulbCondition.validate, ht]
  cases reqFloat o "dry_bulb_max" (some (-90)) (some 70) <;>
    cases reqFloat o "dry_bulb_range" (some 0) none <;> simp

/-- A validated `HumidityCondition` carries the model's own name as its
discriminator. -/
theorem humidity_validate_ok_type
    {o : List (String × JValue)} {c : HumidityCondition}
    (h : HumidityCondition.validate o = .ok c) :
    c.type = "HumidityCondition" := by
  simp only [HumidityCondition.validate] at h
  split at h
  · rename_i t ht' v p r s htag hh hv hp hr hs
    cases h
    exact typeTag_ok_eq htag
  · simp at h

/-- A supplied discriminator different from the model's name makes
`HumidityCondition` validation fail. -/
theorem humidity_validate_bad_type
    {o : List (String × JValue)} {s : String} {c : HumidityCondition}
    (hg : getField o "type" = some (.str s)) (hs : s ≠ "HumidityCondition") :
    HumidityCondition.validate o ≠ .ok c := by
  have ht : typeTag o "HumidityCondition" = .error (fieldErr "type"
      (.constraintViolation
        ("string does not match regex ^" ++ "HumidityCondition" ++ "$"))) := by
    simp [typeTag, hg, hs]
  simp only [HumidityCondition.validate, ht]
  cases reqEnum o "humidity_type" HumidityTypes.fromStr <;>
    cases reqFloat o "humidity_value" none none <;>
    cases optFloat o "barometric_pressure" 101325 (some 31000) (some 120000) <;>
    cases optBool o "rain" false <;>
    cases optBool o "snow_on_ground" false <;> simp

/-- A validated `WindCondition` carries the model's own name as its
discriminator. -/
theorem wind_validate_ok_type
    {o : List (String × JValue)} {c : WindCondition}
    (h : WindCondition.validate o = .ok c) :
    c.type = "WindCondition" := by
  simp only [WindCondition.validate] at h
  split at h
  · rename_i t s d htag hs hd
    cases h
    exact typeTag_ok_eq htag
  · simp at h

/-- A supplied discriminator different from the model's name makes
`WindCondition` validation fail. -/
theorem wind_validate_bad_type
    {o : List (String × JValue)} {s : String} {c : WindCondition}
    (hg : getField o "type" = some (.str s)) (hs : s ≠ "WindCondition") :
    WindCondition.validate o ≠ .ok c := by
  have ht : typeTag o "WindCondition" = .error (fieldErr "type"
      (.constraintViolation
        ("string does not match regex ^" ++ "WindCondition" ++ "$"))) := by
    simp [typeTag, hg, hs]
  simp only [WindCondition.validate, ht]
  cases reqFloat o "wind_speed" (some 0) (some 40) <;>
    cases optFloat o "wind_direction" 0 (some 0) (some 360) <;> simp

/-- C8: for each leaf condition model, a successfully validated instance
carries a discriminator equal to the model's own name, and an input whose
supplied discriminator differs from the model's name never validates. -/
theorem C8_type_discriminator :
    ((∀ (o : List (String × JValue)) (c : DryBulbCondition),
        DryBulbCondition.validate o = .ok c → c.type = "DryBulbCondition") ∧
      (∀ (o : List (String × JValue)) (s : String),
        getField o "type" = some (.str s) → s ≠ "DryBulbCondition" →
        ∀ c, DryBulbCondition.validate o ≠ .ok c)) ∧
    ((∀ (o : List (String × JValue)) (c : HumidityCondition),
        HumidityCondition.validate o = .ok c → c.type = "HumidityCondition") ∧
      (∀ (o : List (String × JValue)) (s : String),
        getField o "type" = some (.str s) → s ≠ "HumidityCondition" →
        ∀ c, HumidityCondition.validate o ≠ .ok c)) ∧
    ((∀ (o : List (String × JValue)) (c : WindCondition),
        WindCondition.validate o = .ok c → c.type = "WindCondition") ∧
      (∀ (o : List (String × JValue)) (s : String),
        getField o "type" = some (.str s) → s ≠ "WindCondition" →
        ∀ c, WindCondition.validate o ≠ .ok c)) :=
  ⟨⟨fun _ _ h => dryBulb_validate_ok_type h,
      fun _ _ hg hs _ => dryBulb_validate_bad_type hg hs⟩,
    ⟨fun _ _ h => humidity_validate_ok_type h,
      fun _ _ hg hs _ => humidity_validate_bad_type hg hs⟩,
    ⟨fun _ _ h => wind_validate_ok_type h,
      fun _ _ hg hs _ => wind_validate_bad_type hg hs⟩⟩

/-- C8 witness: the discriminator laws at concrete inputs — a validated
dry-bulb instance carries the model name, and the same payload tagged
`HumidityCondition` is rejected. -/
theorem C8_type_discriminator_witness :
    (⟨"DryBulbCondition", 25, 10⟩ : DryBulbCondition).type =
      "DryBulbCondition" ∧
    DryBulbCondition.validate
      [("type", JValue.str "HumidityCondition"),
        ("dry_bulb_max", JValue.num 25), ("dry_bulb_range", JValue.num 10)] ≠
      .ok ⟨"DryBulbCondition", 25, 10⟩ :=
  ⟨C8_type_discriminator.1.1
      [("dry_bulb_max", JValue.num 25), ("dry_bulb_range", JValue.num 10)]
      ⟨"DryBulbCondition", 25, 10⟩ (by rfl),
    C8_type_discriminator.1.2
      [("type", JValue.str "HumidityCondition"),
        ("dry_bulb_max", JValue.num 25), ("dry_bulb_range", JValue.num 10)]
      "HumidityCondition" (by rfl) (by decide)
      ⟨"DryBulbCondition", 25, 10⟩⟩

/-- Lookup in a mapping none of whose keys is `k` yields nothing. -/
theorem getField_eq_none {ex : List (String × JValue)} {k : String}
    (h : ∀ p ∈ ex, p.1 ≠ k) : getField ex k = none := by
  induction ex with
  | nil => rfl
  | cons p rest ih =>
      obtain ⟨k', v⟩ := p
      have h1 : k' ≠ k := h (k', v) (by simp)
      simp only [getField, if_neg h1]
      exact ih (fun q hq => h q (by simp [hq]))

/-- Appending entries that never hit `k` does not change the lookup. -/
theorem getField_append_of_none {ex : List (String × JValue)} {k : String}
    (h : getField ex k = none) (o : List (String × JValue)) :
    getField (o ++ ex) k = getField o k := by
  induction o with
  | nil => simpa [getField] using h
  | cons p rest ih =>
      obtain ⟨k', v⟩ := p
      by_cases hk : k' = k <;> simp [getField, hk, ih]

/-- `DryBulbCondition` validation ignores keys outside its declared field
set. -/
theorem dryBulb_validate_extras
    {o ex : List (String × JValue)}
    (h : ∀ p ∈ ex, p.1 ∉ (["type", "dry_bulb_max",
      "dry_bulb_range"] : List String)) :
    DryBulbCondition.validate (o ++ ex) = DryBulbCondition.validate o := by
  have h1 : getField ex "type" = none :=
    getField_eq_none (fun p hp he => h p hp (by rw [he]; decide))
  have h2 : getField ex "dry_bulb_max" = none :=
    getField_eq_none (fun p hp he => h p hp (by rw [he]; decide))
  have h3 : getField ex "dry_bulb_range" = none :=
    getField_eq_none (fun p hp he => h p hp (by rw [he]; decide))
  simp only [DryBulbCondition.validate, typeTag, reqFloat,
    getField_append_of_none h1 o, getField_append_of_none h2 o,
    getField_append_of_none h3 o]

/-- Membership in a conditionally emitted block implies membership in the
block. -/
theorem mem_of_mem_if {α : Type} {P : Prop} [Decidable P] {l : List α}
    {p : α} (h : p ∈ (if P then l else [])) : p ∈ l := by
  split at h
  · exact h
  · simp at h

/-- Every key emitted by `DryBulbCondition` serialization is a declared
field. -/
theorem dryBulb_serialize_keys (c : DryBulbCondition)
    (b : Bool) : ∀ p ∈ DryBulbCondition.serialize c b,
      p.1 ∈ (["type", "dry_bulb_max", "dry_bulb_range"] : List String) := by
  intro p hp
  simp only [DryBulbCondition.serialize, List.append_assoc,
    List.mem_append] at hp
  rcases hp with h | h
  · have h2 := mem_of_mem_if h
    simp at h2
    subst h2
    simp
  · simp at h
    rcases h with rfl | rfl <;> simp

/-- `HumidityCondition` validation ignores keys outside its declared field
set. -/
theorem humidity_validate_extras
    {o ex : List (String × JValue)}
    (h : ∀ p ∈ ex, p.1 ∉ (["type", "humidity_type", "humidity_value",
      "barometric_pressure", "rain", "snow_on_ground"] : List String)) :
    HumidityCondition.validate (o ++ ex) = HumidityCondition.validate o := by
  have h1 : getField ex "type" = none :=
    getField_eq_none (fun p hp he => h p hp (by rw [he]; decide))
  have h2 : getField ex "humidity_type" = none :=
    getField_eq_none (fun p hp he => h p hp (by rw [he]; decide))
  have h3 : getField ex "humidity_value" = none :=
    getField_eq_none (fun p hp he => h p hp (by rw [he]; decide))
  have h4 : getField ex "barometric_pressure" = none :=
    getField_eq_none (fun p hp he => h p hp (by rw [he]; decide))
  have h5 : getField ex "rain" = none :=
    getField_eq_none (fun p hp he => h p hp (by rw [he]; decide))
  have h6 : getField ex "snow_on_ground" = none :=
    getField_eq_none (fun p hp he => h p hp (by rw [he]; decide))
  simp only [HumidityCondition.validate, typeTag, reqEnum, reqFloat,
    optFloat, optBool,
    getField_append_of_none h1 o, getField_append_of_none h2 o,
    getField_append_of_none h3 o, getField_append_of_none h4 o,
    getField_append_of_none h5 o, getField_append_of_none h6 o]

/-- Every key emitted by `HumidityCondition` serialization is a declared
field. -/
theorem humidity_serialize_keys (c : HumidityCondition)
    (b : Bool) : ∀ p ∈ HumidityCondition.serialize c b,
      p.1 ∈ (["type", "humidity_type", "humidity_value",
        "barometric_pressure", "rain", "snow_on_ground"] : List String) := by
  intro p hp
  simp only [HumidityCondition.serialize, List.append_assoc,
    List.mem_append] at hp
  rcases hp with h | h | h | h | h
  · have h2 := mem_of_mem_if h
    simp at h2
    subst h2
    simp
  · simp at h
    rcases h with rfl | rfl <;> simp
  · have h2 := mem_of_mem_if h
    simp at h2
    subst h2
    simp
  · have h2 := mem_of_mem_if h
    simp at h2
    subst h2
    simp
  · have h2 := mem_of_mem_if h
    simp at h2
    subst h2
    simp

/-- `WindCondition` validation ignores keys outside its declared field
set. -/
theorem wind_validate_extras
    {o ex : List (String × JValue)}
    (h : ∀ p ∈ ex, p.1 ∉ (["type", "wind_speed",
      "wind_direction"] : List String)) :
    WindCondition.validate (o ++ ex) = WindCondition.validate o := by
  have h1 : getField ex "type" = none :=
    getField_eq_none (fun p hp he => h p hp (by rw [he]; decide))
  have h2 : getField ex "wind_speed" = none :=
    getField_eq_none (fun p hp he => h p hp (by rw [he]; decide))
  have h3 : getField ex "wind_direction" = none :=
    getField_eq_none (fun p hp he => h p hp (by rw [he]; decide))
  simp only [WindCondition.validate, typeTag, reqFloat, optFloat,
    getField_append_of_none h1 o, getField_append_of_none h2 o,
    getField_append_of_none h3 o]

/-- Every key emitted by `WindCondition` serialization is a declared
field. -/
theorem wind_serialize_keys (c : WindCondition)
    (b : Bool) : ∀ p ∈ WindCondition.serialize c b,
      p.1 ∈ (["type", "wind_speed", "wind_direction"] : List String) := by
  intro p hp
  simp only [WindCondition.serialize, List.append_assoc,
    List.mem_append] at hp
  rcases hp with h | h | h
  · have h2 := mem_of_mem_if h
    simp at h2
    subst h2
    simp
  · simp at h
    subst h
    simp
  · have h2 := mem_of_mem_if h
    simp at h2
    subst h2
    simp

/-- C10: for each leaf condition model, input keys outside the declared
field set are silently ignored — appending such entries leaves the entire
validation result unchanged — and the serialization of any instance emits
only declared keys, so extra input keys never reappear. -/
theorem C10_extra_keys_ignored :
    ((∀ o ex : List (String × JValue),
        (∀ p ∈ ex, p.1 ∉ (["type", "dry_bulb_max",
          "dry_bulb_range"] : List String)) →
        DryBulbCondition.validate (o ++ ex) = DryBulbCondition.validate o) ∧
      (∀ (c : DryBulbCondition) (b : Bool),
        ∀ p ∈ DryBulbCondition.serialize c b,
          p.1 ∈ (["type", "dry_bulb_max",
            "dry_bulb_range"] : List String))) ∧
    ((∀ o ex : List (String × JValue),
        (∀ p ∈ ex, p.1 ∉ (["type", "humidity_type", "humidity_value",
          "barometric_pressure", "rain", "snow_on_ground"] : List String)) →
        HumidityCondition.validate (o ++ ex) = HumidityCondition.validate o) ∧
      (∀ (c : HumidityCondition) (b : Bool),
        ∀ p ∈ HumidityCondition.serialize c b,
          p.1 ∈ (["type", "humidity_type", "humidity_value",
            "barometric_pressure", "rain", "snow_on_ground"] : List String))) ∧
    ((∀ o ex : List (String × JValue),
        (∀ p ∈ ex, p.1 ∉ (["type", "wind_speed",
          "wind_direction"] : List String)) →
        WindCondition.validate (o ++ ex) = WindCondition.validate o) ∧
      (∀ (c : WindCondition) (b : Bool),
        ∀ p ∈ WindCondition.serialize c b,
          p.1 ∈ (["type", "wind_speed", "wind_direction"] : List String))) :=
  ⟨⟨fun _ _ h => dryBulb_validate_extras h,
      dryBulb_serialize_keys⟩,
    ⟨fun _ _ h => humidity_validate_extras h,
      humidity_serialize_keys⟩,
    ⟨fun _ _ h => wind_validate_extras h,
      wind_serialize_keys⟩⟩

/-- C10 witness: extra keys at work on a concrete dry-bulb mapping — adding
an undeclared `elevation` entry leaves validation unchanged, and a concrete
serialized key is among the declared fields. -/
theorem C10_extra_keys_ignored_witness :
    DryBulbCondition.validate
      ([("dry_bulb_max", JValue.num 25), ("dry_bulb_range", JValue.num 10)] ++
        [("elevation", JValue.num 100)]) =
      DryBulbCondition.validate
        [("dry_bulb_max", JValue.num 25), ("dry_bulb_range", JValue.num 10)] ∧
    ("type" : String) ∈ (["type", "dry_bulb_max",
      "dry_bulb_range"] : List String) :=
  ⟨C10_extra_keys_ignored.1.1
      [("dry_bulb_max", JValue.num 25), ("dry_bulb_range", JValue.num 10)]
      [("elevation", JValue.num 100)] (by decide),
    C10_extra_keys_ignored.1.2 ⟨"DryBulbCondition", 25, 10⟩ true
      ("type", JValue.str "DryBulbCondition")
      (by simp [DryBulbCondition.serialize])⟩

end DesignDaySchema
